import Mathlib

/-!
Shallow embedding of `instatus/component_resource.go` from
terraform-provider-instatus: the `componentResource` Terraform resource
implementing CRUD for an Instatus status-page component.

Terraform framework values (`types.String`, `types.Int64`, `types.Bool`) are
modelled as `Option`: `none` stands for a null (or unknown) value and
`some v` for a known value.  The external client's `is.Component` DTO uses
Go pointer fields, likewise modelled with `Option`; Go `nil` is `none`.
Each lifecycle handler is embedded as a pure function of the parsed plan
(or prior state), the collaborator's response, and the already-formatted
current timestamp; it returns the client calls it issued, the diagnostics
it appended, and the state it wrote (`none` when it returned without
writing state).
-/

namespace Instatus

/-- Group value carried inside the client's component DTO; the handlers read
its `Name` field (`component.Group.Name` in Go). -/
structure ComponentGroup where
  name : Option String
deriving DecidableEq

/-- The client library's `is.Component` DTO.  Fields omitted from a Go
struct literal are `nil`, so every field defaults to `none`. -/
structure Component where
  id : Option String := none
  uniqueEmail : Option String := none
  name : Option String := none
  description : Option String := none
  status : Option String := none
  order : Option Int := none
  showUptime : Option Bool := none
  grouped : Option Bool := none
  groupID : Option String := none
  group : ComponentGroup := ⟨none⟩
deriving DecidableEq

/-- Go struct `componentResourceModel`: the Terraform plan/state record with
its twelve schema attributes. -/
structure componentResourceModel where
  id : Option String
  uniqueEmail : Option String
  name : Option String
  pageID : Option String
  description : Option String
  status : Option String
  order : Option Int
  groupID : Option String
  showUptime : Option Bool
  grouped : Option Bool
  group : Option String
  lastUpdated : Option String
deriving DecidableEq

/-- One entry of `resp.Diagnostics`: `AddError` appends an entry with
`isError = true`, `AddWarning` one with `isError = false`. -/
structure Diagnostic where
  isError : Bool
  summary : String
  detail : String
deriving DecidableEq

/-- One call to the external client, with the arguments the handler passed. -/
inductive ClientCall where
  | createComponent (pageID : String) (item : Component)
  | getComponent (pageID : String) (componentID : String)
  | updateComponent (pageID : String) (componentID : String) (item : Component)
  | deleteComponent (pageID : String) (componentID : String)
deriving DecidableEq

/-- Go `types.String.ValueString()`: the known value, or the empty string
when the value is null or unknown. -/
def valueString (s : Option String) : String := s.getD ""

/-- Observable outcome of one lifecycle handler invocation: the client
calls issued in order, the diagnostics appended, and the state written via
`resp.State.Set` (`none` when the handler returned without writing). -/
structure OpResult where
  calls : List ClientCall
  diags : List Diagnostic
  written : Option componentResourceModel
deriving DecidableEq

namespace componentResource

/-- The request DTO `item` built from the plan — the same seven-field
struct literal appears verbatim in both `Create` and `Update`: each plan
attribute is copied through its Go pointer accessor (`ValueStringPointer`,
`ValueInt64Pointer`, `ValueBoolPointer`), and all other DTO fields are
left `nil`. -/
def requestItem (plan : componentResourceModel) : Component :=
  { name := plan.name,
    description := plan.description,
    status := plan.status,
    order := plan.order,
    showUptime := plan.showUptime,
    grouped := plan.grouped,
    group := ⟨plan.group⟩ }

/-- Go `componentResource.Create`: build the request DTO from the plan and
call `CreateComponent(pageID, item)`.  On error add one error diagnostic
and return without writing; on success copy the response's `ID`,
`UniqueEmail`, `Order`, `GroupID` and `Group.Name` into the plan, stamp
`LastUpdated` with the formatted current time, and write the state. -/
def Create (plan : componentResourceModel) (resp : Except String Component)
    (now : String) : OpResult :=
  let item := requestItem plan
  let call := ClientCall.createComponent (valueString plan.pageID) item
  match resp with
  | Except.error err =>
      { calls := [call],
        diags := [{ isError := true,
                    summary := "Error creating component",
                    detail := "Could not create component, unexpected error: " ++ err }],
        written := none }
  | Except.ok component =>
      { calls := [call],
        diags := [],
        written := some { plan with
          id := component.id,
          uniqueEmail := component.uniqueEmail,
          order := component.order,
          groupID := component.groupID,
          group := component.group.name,
          lastUpdated := some now } }

/-- Go `componentResource.Read`: call `GetComponent(pageID, id)` with the
identifiers from the prior state.  On error add one error diagnostic and
return without writing; on success overwrite `UniqueEmail`, `Name`,
`Description`, `Status`, `Order`, `GroupID`, `ShowUptime`, `Grouped`
(recomputed as `component.Group.Name != nil`) and `Group`, then write the
refreshed state. -/
def Read (state : componentResourceModel) (resp : Except String Component) :
    OpResult :=
  let call := ClientCall.getComponent (valueString state.pageID) (valueString state.id)
  match resp with
  | Except.error err =>
      { calls := [call],
        diags := [{ isError := true,
                    summary := "Error Reading Instatus Component",
                    detail := "Could not read Instatus component ID " ++
                      valueString state.id ++ ": " ++ err }],
        written := none }
  | Except.ok component =>
      { calls := [call],
        diags := [],
        written := some { state with
          uniqueEmail := component.uniqueEmail,
          name := component.name,
          description := component.description,
          status := component.status,
          order := component.order,
          groupID := component.groupID,
          showUptime := component.showUptime,
          grouped := some component.group.name.isSome,
          group := component.group.name } }

/-- Go `componentResource.Update`: build the request DTO from the plan and
call `UpdateComponent(pageID, id, item)`.  On error add one error
diagnostic and return without writing; on success first add a warning
diagnostic carrying the response's group name in both summary and detail,
then copy the response's `ID`, `GroupID`, `Group.Name`, `Order` and
`UniqueEmail` into the plan, stamp `LastUpdated`, and write the state. -/
def Update (plan : componentResourceModel) (resp : Except String Component)
    (now : String) : OpResult :=
  let item := requestItem plan
  let call := ClientCall.updateComponent (valueString plan.pageID)
    (valueString plan.id) item
  match resp with
  | Except.error err =>
      { calls := [call],
        diags := [{ isError := true,
                    summary := "Error Updating Instatus Component",
                    detail := "Could not update component, unexpected error: " ++ err }],
        written := none }
  | Except.ok component =>
      { calls := [call],
        diags := [{ isError := false,
                    summary := "Group name : " ++ valueString component.group.name,
                    detail := valueString component.group.name }],
        written := some { plan with
          id := component.id,
          groupID := component.groupID,
          group := component.group.name,
          order := component.order,
          uniqueEmail := component.uniqueEmail,
          lastUpdated := some now } }

/-- Go `componentResource.Delete`: call `DeleteComponent(pageID, id)` with
the identifiers from the prior state.  On error add one error diagnostic;
in either case the handler writes no state itself.  The response is the
error the client returned, `none` on success. -/
def Delete (state : componentResourceModel) (respErr : Option String) :
    OpResult :=
  let call := ClientCall.deleteComponent (valueString state.pageID) (valueString state.id)
  match respErr with
  | some err =>
      { calls := [call],
        diags := [{ isError := true,
                    summary := "Error Deleting Instatus Component",
                    detail := "Could not delete component, unexpected error: " ++ err }],
        written := none }
  | none => { calls := [call], diags := [], written := none }

/-- The state record with every attribute null, as the import response
state starts out. -/
def emptyModel : componentResourceModel :=
  { id := none, uniqueEmail := none, name := none, pageID := none,
    description := none, status := none, order := none, groupID := none,
    showUptime := none, grouped := none, group := none, lastUpdated := none }

/-- Go `componentResource.ImportState`, which delegates to the framework
helper `resource.ImportStatePassthroughID(ctx, path.Root("id"), req, resp)`.
The helper's documented behaviour (external framework code): set exactly
the attribute at the given path — here `id` — of the response state to the
request's import identifier, touching nothing else. -/
def ImportState (importID : String) : componentResourceModel :=
  { emptyModel with id := some importID }

end componentResource

/-- The `componentStatuses` slice from `Schema`: the five admissible values
of the `status` attribute. -/
def componentStatuses : List String :=
  ["OPERATIONAL", "UNDERMAINTENANCE", "DEGRADEDPERFORMANCE", "PARTIALOUTAGE", "MAJOROUTAGE"]

/-- The framework validator `stringvalidator.OneOf(values...)` (external
framework code, per its documented contract): a known configured string
passes exactly when it equals one of the listed values. -/
def oneOf (allowed : List String) (value : String) : Bool := allowed.contains value

/-- The validator installed on the `status` attribute in `Schema`. -/
def statusValidator (value : String) : Bool := oneOf componentStatuses value

/-- The schema-level properties of one attribute that the claims refer to:
the `Required`/`Optional`/`Computed` flags and, for bool attributes, the
static default installed via `booldefault.StaticBool`. -/
structure AttributeSchema where
  required : Bool := false
  optional : Bool := false
  computed : Bool := false
  defaultBool : Option Bool := none
deriving DecidableEq

/-- The attribute map of `componentResource.Schema`, keyed by attribute
name, restricted to the flags and defaults the claims mention. -/
def schemaAttributes : List (String × AttributeSchema) :=
  [("id", { computed := true }),
   ("unique_email", { computed := true }),
   ("last_updated", { computed := true }),
   ("page_id", { required := true }),
   ("name", { required := true }),
   ("description", { optional := true }),
   ("status", { optional := true }),
   ("order", { optional := true, computed := true }),
   ("group_id", { computed := true }),
   ("show_uptime", { optional := true }),
   ("grouped", { optional := true, computed := true, defaultBool := some false }),
   ("group", { optional := true })]

/-- Lookup in the schema attribute map. -/
def schemaAttribute (name : String) : Option AttributeSchema :=
  schemaAttributes.lookup name

/-- The framework's default application during planning (external framework
code, per its documented contract): when the configured value of an
attribute is null and the attribute declares a default, the plan takes the
default; a configured value passes through unchanged. -/
def applyBoolDefault (attr : AttributeSchema) (config : Option Bool) : Option Bool :=
  match config with
  | some b => some b
  | none => attr.defaultBool

/-- Concrete plan used by the C1 counterexample: the user planned the name
`planned-name`. -/
def c1Plan : componentResourceModel :=
  { componentResource.emptyModel with name := some "planned-name", pageID := some "page-1" }

/-- Concrete client response used by the C1 counterexample: the service
returned the name `remote-name`. -/
def c1Component : Component := { name := some "remote-name" }

/-- C1 counterexample: on a successful Create the written state's `name` is
not the value in the returned DTO — the handler never copies `Name` (nor
`Description`, `Status`, `ShowUptime`) back from the response, so the state
keeps the planned value `planned-name` while the DTO holds `remote-name`. -/
theorem c1_counterexample :
    ¬ ((componentResource.Create c1Plan (Except.ok c1Component) "t").written.map
        componentResourceModel.name = some c1Component.name) := by
  decide

/-- C1 (amended): on every successful Create and Update, the response DTO's
id, unique email, order, group id and group name are copied into the state
and `last_updated` is stamped with the current time, while the state's
name, description, status, show_uptime and grouped keep the planned
values, not the values in the returned DTO. -/
theorem c1_success_state_mapping (plan : componentResourceModel)
    (c : Component) (now : String) :
    ∃ stc stu,
      (componentResource.Create plan (Except.ok c) now).written = some stc ∧
      (componentResource.Update plan (Except.ok c) now).written = some stu ∧
      stc.id = c.id ∧ stc.uniqueEmail = c.uniqueEmail ∧ stc.order = c.order ∧
      stc.groupID = c.groupID ∧ stc.group = c.group.name ∧
      stc.lastUpdated = some now ∧
      stc.name = plan.name ∧ stc.description = plan.description ∧
      stc.status = plan.status ∧ stc.showUptime = plan.showUptime ∧
      stc.grouped = plan.grouped ∧
      stu.id = c.id ∧ stu.uniqueEmail = c.uniqueEmail ∧ stu.order = c.order ∧
      stu.groupID = c.groupID ∧ stu.group = c.group.name ∧
      stu.lastUpdated = some now ∧
      stu.name = plan.name ∧ stu.description = plan.description ∧
      stu.status = plan.status ∧ stu.showUptime = plan.showUptime ∧
      stu.grouped = plan.grouped :=
  ⟨_, _, rfl, rfl, rfl, rfl, rfl, rfl, rfl, rfl, rfl, rfl, rfl, rfl, rfl,
   rfl, rfl, rfl, rfl, rfl, rfl, rfl, rfl, rfl, rfl, rfl⟩

/-- The error-path shape claimed by C2 for one handler invocation: exactly
one client call was issued, exactly one diagnostic was appended, it is an
error whose detail ends with (hence contains) the collaborator's error
message, and no state was written. -/
def singleErrorNoWrite (r : OpResult) (err : String) : Prop :=
  r.calls.length = 1 ∧ r.written = none ∧
  ∃ d, r.diags = [d] ∧ d.isError = true ∧ ∃ a, d.detail = a ++ err

/-- C2: whenever the client call returns an error, each of Create, Read,
Update and Delete appends exactly one error diagnostic whose detail
contains the collaborator's error message, issues no further client call
beyond the single failed one, and returns without writing any state. -/
theorem c2_error_paths (plan state : componentResourceModel)
    (err now : String) :
    singleErrorNoWrite (componentResource.Create plan (Except.error err) now) err ∧
    singleErrorNoWrite (componentResource.Read state (Except.error err)) err ∧
    singleErrorNoWrite (componentResource.Update plan (Except.error err) now) err ∧
    singleErrorNoWrite (componentResource.Delete state (some err)) err :=
  ⟨⟨rfl, rfl, _, rfl, rfl, _, rfl⟩,
   ⟨rfl, rfl, _, rfl, rfl, _, rfl⟩,
   ⟨rfl, rfl, _, rfl, rfl, _, rfl⟩,
   ⟨rfl, rfl, _, rfl, rfl, _, rfl⟩⟩

/-- Concrete prior state used by the C3 counterexample. -/
def c3State : componentResourceModel :=
  { componentResource.emptyModel with pageID := some "page-1", id := some "comp-1" }

/-- Concrete client response used by the C3 counterexample: the DTO says
`Grouped = false` yet carries the group name `backend`. -/
def c3Component : Component := { grouped := some false, group := ⟨some "backend"⟩ }

/-- C3 counterexample: on a successful Read the stored pair
(grouped, group) is not the pair returned in the DTO — Read derives
`grouped` locally as `component.Group.Name != nil`, so with a DTO whose
`Grouped` field is `false` but whose group name is set, the state stores
`grouped = true` while the DTO said `false`. -/
theorem c3_counterexample :
    ¬ ((componentResource.Read c3State (Except.ok c3Component)).written.map
        (fun st => (st.grouped, st.group)) =
      some (c3Component.grouped, c3Component.group.name)) := by
  decide

/-- C3 (amended): on a successful Read the state's `group` is the DTO's
group name copied verbatim, but `grouped` is derived locally as whether
that name is non-nil — the DTO's own `Grouped` field is ignored; on
successful Create and Update the group name is copied from the DTO while
`grouped` keeps the planned value. -/
theorem c3_grouped_group_mapping (plan state : componentResourceModel)
    (c : Component) (now : String) :
    (componentResource.Read state (Except.ok c)).written.map
      componentResourceModel.group = some c.group.name ∧
    (componentResource.Read state (Except.ok c)).written.map
      componentResourceModel.grouped = some (some c.group.name.isSome) ∧
    (componentResource.Create plan (Except.ok c) now).written.map
      componentResourceModel.group = some c.group.name ∧
    (componentResource.Create plan (Except.ok c) now).written.map
      componentResourceModel.grouped = some plan.grouped ∧
    (componentResource.Update plan (Except.ok c) now).written.map
      componentResourceModel.group = some c.group.name ∧
    (componentResource.Update plan (Except.ok c) now).written.map
      componentResourceModel.grouped = some plan.grouped :=
  ⟨rfl, rfl, rfl, rfl, rfl, rfl⟩

/-- C4: the `status` attribute's validator accepts a configured string
exactly when it is one of the five enum members OPERATIONAL,
UNDERMAINTENANCE, DEGRADEDPERFORMANCE, PARTIALOUTAGE, MAJOROUTAGE. -/
theorem c4_status_validator (s : String) :
    statusValidator s = true ↔
      s = "OPERATIONAL" ∨ s = "UNDERMAINTENANCE" ∨ s = "DEGRADEDPERFORMANCE" ∨
      s = "PARTIALOUTAGE" ∨ s = "MAJOROUTAGE" := by
  simp [statusValidator, oneOf, componentStatuses, List.contains, List.elem_eq_mem]

/-- C5: for every Create and Update invocation the request DTO is built by
copying each plan field unchanged — its Name, Description, Status, Order,
ShowUptime, Grouped and Group fields equal the corresponding plan
attributes — and the page identifier (plus, for Update, the component
identifier) is passed as the call argument. -/
theorem c5_request_from_plan (plan : componentResourceModel)
    (resp : Except String Component) (now : String) :
    (componentResource.requestItem plan).name = plan.name ∧
    (componentResource.requestItem plan).description = plan.description ∧
    (componentResource.requestItem plan).status = plan.status ∧
    (componentResource.requestItem plan).order = plan.order ∧
    (componentResource.requestItem plan).showUptime = plan.showUptime ∧
    (componentResource.requestItem plan).grouped = plan.grouped ∧
    (componentResource.requestItem plan).group.name = plan.group ∧
    (componentResource.Create plan resp now).calls =
      [ClientCall.createComponent (valueString plan.pageID)
        (componentResource.requestItem plan)] ∧
    (componentResource.Update plan resp now).calls =
      [ClientCall.updateComponent (valueString plan.pageID) (valueString plan.id)
        (componentResource.requestItem plan)] := by
  refine ⟨rfl, rfl, rfl, rfl, rfl, rfl, rfl, ?_, ?_⟩ <;> cases resp <;> rfl

/-- C6: the component identifier and unique email are never client-set —
the request DTO sent by Create and Update carries nil `ID` and
`UniqueEmail`, both attributes are declared Computed (neither Optional nor
Required) in the schema, and after every successful Create, Update and
Read the state's values of these attributes are the ones the service
returned in the DTO. -/
theorem c6_server_assigned_identity (plan state : componentResourceModel)
    (c : Component) (now : String) :
    (componentResource.requestItem plan).id = none ∧
    (componentResource.requestItem plan).uniqueEmail = none ∧
    (schemaAttribute "id").map AttributeSchema.computed = some true ∧
    (schemaAttribute "id").map AttributeSchema.optional = some false ∧
    (schemaAttribute "id").map AttributeSchema.required = some false ∧
    (schemaAttribute "unique_email").map AttributeSchema.computed = some true ∧
    (schemaAttribute "unique_email").map AttributeSchema.optional = some false ∧
    (schemaAttribute "unique_email").map AttributeSchema.required = some false ∧
    (componentResource.Create plan (Except.ok c) now).written.map
      componentResourceModel.id = some c.id ∧
    (componentResource.Create plan (Except.ok c) now).written.map
      componentResourceModel.uniqueEmail = some c.uniqueEmail ∧
    (componentResource.Update plan (Except.ok c) now).written.map
      componentResourceModel.id = some c.id ∧
    (componentResource.Update plan (Except.ok c) now).written.map
      componentResourceModel.uniqueEmail = some c.uniqueEmail ∧
    (componentResource.Read state (Except.ok c)).written.map
      componentResourceModel.uniqueEmail = some c.uniqueEmail :=
  ⟨rfl, rfl, by decide, by decide, by decide, by decide, by decide, by decide,
   rfl, rfl, rfl, rfl, rfl⟩

/-- C7: every successful Read is a full re-fetch — unique_email, name,
description, status, order, group_id, show_uptime, grouped and group are
all overwritten with values taken from the freshly fetched DTO, while id,
page_id and last_updated are left exactly as in the prior state. -/
theorem c7_read_full_refetch (state : componentResourceModel) (c : Component) :
    ∃ st, (componentResource.Read state (Except.ok c)).written = some st ∧
      st.uniqueEmail = c.uniqueEmail ∧ st.name = c.name ∧
      st.description = c.description ∧ st.status = c.status ∧
      st.order = c.order ∧ st.groupID = c.groupID ∧
      st.showUptime = c.showUptime ∧ st.grouped = some c.group.name.isSome ∧
      st.group = c.group.name ∧
      st.id = state.id ∧ st.pageID = state.pageID ∧
      st.lastUpdated = state.lastUpdated :=
  ⟨_, rfl, rfl, rfl, rfl, rfl, rfl, rfl, rfl, rfl, rfl, rfl, rfl, rfl⟩

/-- C8: ImportState is a pure passthrough of the import identifier — it
sets exactly the state's `id` attribute to the supplied identifier and
leaves every other attribute unset. -/
theorem c8_import_passthrough (importID : String) :
    (componentResource.ImportState importID).id = some importID ∧
    (componentResource.ImportState importID).uniqueEmail = none ∧
    (componentResource.ImportState importID).name = none ∧
    (componentResource.ImportState importID).pageID = none ∧
    (componentResource.ImportState importID).description = none ∧
    (componentResource.ImportState importID).status = none ∧
    (componentResource.ImportState importID).order = none ∧
    (componentResource.ImportState importID).groupID = none ∧
    (componentResource.ImportState importID).showUptime = none ∧
    (componentResource.ImportState importID).grouped = none ∧
    (componentResource.ImportState importID).group = none ∧
    (componentResource.ImportState importID).lastUpdated = none :=
  ⟨rfl, rfl, rfl, rfl, rfl, rfl, rfl, rfl, rfl, rfl, rfl, rfl⟩

/-- C9: every successful Update unconditionally appends exactly one warning
diagnostic whose summary is the string `Group name : ` followed by the
group name from the response DTO and whose detail is that group name — the
empty string when the DTO carries no group name. -/
theorem c9_update_always_warns (plan : componentResourceModel)
    (c : Component) (now : String) :
    (componentResource.Update plan (Except.ok c) now).diags =
      [{ isError := false,
         summary := "Group name : " ++ valueString c.group.name,
         detail := valueString c.group.name }] := rfl

/-- C10: the `grouped` attribute carries the static default `false`, so a
configuration that omits it yields the plan value `false`, and no plan
entering Create or Update carries a null `grouped` value. -/
theorem c10_grouped_static_default (config : Option Bool) :
    ∃ a, schemaAttribute "grouped" = some a ∧ a.defaultBool = some false ∧
      applyBoolDefault a none = some false ∧
      (applyBoolDefault a config).isSome = true := by
  refine ⟨{ optional := true, computed := true, defaultBool := some false },
    by decide, rfl, rfl, ?_⟩
  cases config <;> rfl

end Instatus
